import Mathlib

/-!
# Verification of the cyclones.re snapshot prefetch/selection engine

Shallow embedding of the viewer's data-loading hook (`useCycloneData`,
src/unnamed/part_001 lines 242-396), the index generator's timestamp field
(src/meteo-france-api/fetch_api.ts), and — where the repository source for a
component is not present under src/ — definitions modelled from the spec
(marked as such in their doc comments).

JS numbers are modelled as `Int` (all quantities involved are integers:
epoch timestamps, indices, millisecond constants); bounding-box degrees are
modelled as `Rat`. Asynchronous effects are modelled by explicit outcome
functions (`Except String _`) and explicit state passing over `HookState`.
-/

/-- A satellite image reference inside a metadata entry: `file` path and
geographic bounding box `[minLon, minLat, maxLon, maxLat]` in degrees
(README "Data Structure", src/unnamed/part_002). -/
structure SatelliteImageData where
  file : String
  minLon : Rat
  minLat : Rat
  maxLon : Rat
  maxLat : Rat
deriving DecidableEq

/-- One entry of the Metadata Store, as consumed by `useCycloneData`
(src/unnamed/part_001): an epoch `timestamp`, the trajectory resource
`path`, and two optional satellite image references. -/
structure SnapshotMetadata where
  timestamp : Int
  path : String
  satellite_ir108 : Option SatelliteImageData
  satellite_rgb_naturalenhncd : Option SatelliteImageData
deriving DecidableEq

/-- Default metadata value used to express JS array indexing `data[i]`
(always guarded by a bounds fact in the source paths we model). -/
def mdefault : SnapshotMetadata :=
  { timestamp := 0, path := "", satellite_ir108 := none,
    satellite_rgb_naturalenhncd := none }

/-- The parsed trajectory payload; opaque to the engine (treated as a
passthrough value). -/
structure LoadedSnapshot where
  payload : String
deriving DecidableEq

/-- `Math.abs(data[i].timestamp - twoDaysAgo)` for one entry
(src/unnamed/part_001 line 298). -/
def tsDiff (twoDaysAgo : Int) (m : SnapshotMetadata) : Nat :=
  (m.timestamp - twoDaysAgo).natAbs

/-- `Math.abs(data[i].timestamp - twoDaysAgo)` at index `i` of the store. -/
def diffAt (data : List SnapshotMetadata) (twoDaysAgo : Int) (i : Nat) : Nat :=
  tsDiff twoDaysAgo (data.getD i mdefault)

/-- The body of the default-index `for` loop of `useCycloneData`
(src/unnamed/part_001 lines 295-303), as a structural recursion over the
remaining entries. `i` is the loop counter; the accumulator carries
`(initialIndex, minDiff)`, with `none` standing for the initial
`Infinity`. The update fires exactly when `diff < minDiff`. -/
def scanLoop (twoDaysAgo : Int) :
    List SnapshotMetadata → Nat → Nat × Option Nat → Nat × Option Nat
  | [], _, acc => acc
  | m :: rest, i, (best, minDiff) =>
    let diff := tsDiff twoDaysAgo m
    match minDiff with
    | none => scanLoop twoDaysAgo rest (i + 1) (i, some diff)
    | some md =>
      if diff < md then scanLoop twoDaysAgo rest (i + 1) (i, some diff)
      else scanLoop twoDaysAgo rest (i + 1) (best, some md)

/-- `initialIndex` as computed by the scan of src/unnamed/part_001
lines 295-304 (started with `initialIndex = 0`, `minDiff = Infinity`). -/
def defaultIndexScan (data : List SnapshotMetadata) (twoDaysAgo : Int) : Nat :=
  (scanLoop twoDaysAgo data 0 (0, none)).1

lemma getD_mem_of_lt {l : List SnapshotMetadata} {n : Nat}
    (h : n < l.length) : l.getD n mdefault ∈ l := by
  rw [List.getD_eq_getElem l mdefault h]
  exact List.getElem_mem h

lemma scanLoop_no_improve (twoDaysAgo : Int) :
    ∀ (rest : List SnapshotMetadata) (i best d : Nat),
      (∀ m ∈ rest, d ≤ tsDiff twoDaysAgo m) →
      scanLoop twoDaysAgo rest i (best, some d) = (best, some d) := by
  intro rest
  induction rest with
  | nil => intro i best d _; rfl
  | cons m r ih =>
    intro i best d hall
    have hm : ¬ tsDiff twoDaysAgo m < d :=
      Nat.not_lt.mpr (hall m (List.mem_cons_self m r))
    simp only [scanLoop, hm, if_false]
    exact ih (i + 1) best d (fun x hx => hall x (List.mem_cons_of_mem m hx))

lemma scanLoop_improve (twoDaysAgo : Int) :
    ∀ (rest : List SnapshotMetadata) (i best d : Nat),
      (∃ m ∈ rest, tsDiff twoDaysAgo m < d) →
      ∃ j, j < rest.length ∧
        scanLoop twoDaysAgo rest i (best, some d)
          = (i + j, some (diffAt rest twoDaysAgo j)) ∧
        diffAt rest twoDaysAgo j < d ∧
        (∀ k, k < rest.length →
          diffAt rest twoDaysAgo j ≤ diffAt rest twoDaysAgo k) ∧
        (∀ k, k < j → diffAt rest twoDaysAgo j < diffAt rest twoDaysAgo k) := by
  intro rest
  induction rest with
  | nil => intro i best d h; simp at h
  | cons m r ih =>
    intro i best d himp
    by_cases hm : tsDiff twoDaysAgo m < d
    · -- the head strictly improves: state becomes (i, diff m)
      by_cases hr : ∃ m2 ∈ r, tsDiff twoDaysAgo m2 < tsDiff twoDaysAgo m
      · obtain ⟨j, hjlen, heq, hlt, hmin, hstrict⟩ := ih (i + 1) i (tsDiff twoDaysAgo m) hr
        refine ⟨j + 1, by simpa using Nat.succ_lt_succ hjlen, ?_, ?_, ?_, ?_⟩
        · simp only [scanLoop, hm, if_true]
          rw [heq]
          have h1 : i + 1 + j = i + (j + 1) := by omega
          have h2 : diffAt (m :: r) twoDaysAgo (j + 1) = diffAt r twoDaysAgo j := by
            simp [diffAt, List.getD_cons_succ]
          rw [h1, h2]
        · have h2 : diffAt (m :: r) twoDaysAgo (j + 1) = diffAt r twoDaysAgo j := by
            simp [diffAt, List.getD_cons_succ]
          rw [h2]; exact Nat.lt_trans hlt hm
        · intro k hk
          have h2 : diffAt (m :: r) twoDaysAgo (j + 1) = diffAt r twoDaysAgo j := by
            simp [diffAt, List.getD_cons_succ]
          rw [h2]
          cases k with
          | zero =>
            have h0 : diffAt (m :: r) twoDaysAgo 0 = tsDiff twoDaysAgo m := by
              simp [diffAt, List.getD_cons_zero]
            rw [h0]; exact Nat.le_of_lt hlt
          | succ k =>
            have hk2 : diffAt (m :: r) twoDaysAgo (k + 1) = diffAt r twoDaysAgo k := by
              simp [diffAt, List.getD_cons_succ]
            rw [hk2]
            exact hmin k (by simpa using Nat.lt_of_succ_lt_succ hk)
        · intro k hk
          have h2 : diffAt (m :: r) twoDaysAgo (j + 1) = diffAt r twoDaysAgo j := by
            simp [diffAt, List.getD_cons_succ]
          rw [h2]
          cases k with
          | zero =>
            have h0 : diffAt (m :: r) twoDaysAgo 0 = tsDiff twoDaysAgo m := by
              simp [diffAt, List.getD_cons_zero]
            rw [h0]; exact hlt
          | succ k =>
            have hk2 : diffAt (m :: r) twoDaysAgo (k + 1) = diffAt r twoDaysAgo k := by
              simp [diffAt, List.getD_cons_succ]
            rw [hk2]
            exact hstrict k (Nat.lt_of_succ_lt_succ hk)
      · -- the head is the last strict improvement
        push_neg at hr
        refine ⟨0, by simp, ?_, ?_, ?_, ?_⟩
        · simp only [scanLoop, hm, if_true]
          rw [scanLoop_no_improve twoDaysAgo r (i + 1) i (tsDiff twoDaysAgo m) hr]
          simp [diffAt, List.getD_cons_zero]
        · simpa [diffAt, List.getD_cons_zero] using hm
        · intro k hk
          cases k with
          | zero => exact Nat.le_refl _
          | succ k =>
            have h0 : diffAt (m :: r) twoDaysAgo 0 = tsDiff twoDaysAgo m := by
              simp [diffAt, List.getD_cons_zero]
            have hk2 : diffAt (m :: r) twoDaysAgo (k + 1) = diffAt r twoDaysAgo k := by
              simp [diffAt, List.getD_cons_succ]
            rw [h0, hk2]
            have hklen : k < r.length := by simpa using Nat.lt_of_succ_lt_succ hk
            exact hr _ (getD_mem_of_lt hklen)
        · intro k hk; exact absurd hk (Nat.not_lt_zero k)
    · -- no improvement at the head: accumulator unchanged
      have hin : ∃ m2 ∈ r, tsDiff twoDaysAgo m2 < d := by
        obtain ⟨m2, hmem, hlt2⟩ := himp
        rcases List.mem_cons.mp hmem with h | h
        · exact absurd (h ▸ hlt2) hm
        · exact ⟨m2, h, hlt2⟩
      obtain ⟨j, hjlen, heq, hlt, hmin, hstrict⟩ := ih (i + 1) best d hin
      refine ⟨j + 1, by simpa using Nat.succ_lt_succ hjlen, ?_, ?_, ?_, ?_⟩
      · simp only [scanLoop, hm, if_false]
        rw [heq]
        have h1 : i + 1 + j = i + (j + 1) := by omega
        have h2 : diffAt (m :: r) twoDaysAgo (j + 1) = diffAt r twoDaysAgo j := by
          simp [diffAt, List.getD_cons_succ]
        rw [h1, h2]
      · have h2 : diffAt (m :: r) twoDaysAgo (j + 1) = diffAt r twoDaysAgo j := by
          simp [diffAt, List.getD_cons_succ]
        rw [h2]; exact hlt
      · intro k hk
        have h2 : diffAt (m :: r) twoDaysAgo (j + 1) = diffAt r twoDaysAgo j := by
          simp [diffAt, List.getD_cons_succ]
        rw [h2]
        cases k with
        | zero =>
          have h0 : diffAt (m :: r) twoDaysAgo 0 = tsDiff twoDaysAgo m := by
            simp [diffAt, List.getD_cons_zero]
          rw [h0]
          exact Nat.le_trans (Nat.le_of_lt hlt) (Nat.not_lt.mp hm)
        | succ k =>
          have hk2 : diffAt (m :: r) twoDaysAgo (k + 1) = diffAt r twoDaysAgo k := by
            simp [diffAt, List.getD_cons_succ]
          rw [hk2]
          exact hmin k (by simpa using Nat.lt_of_succ_lt_succ hk)
      · intro k hk
        have h2 : diffAt (m :: r) twoDaysAgo (j + 1) = diffAt r twoDaysAgo j := by
          simp [diffAt, List.getD_cons_succ]
        rw [h2]
        cases k with
        | zero =>
          have h0 : diffAt (m :: r) twoDaysAgo 0 = tsDiff twoDaysAgo m := by
            simp [diffAt, List.getD_cons_zero]
          rw [h0]
          exact Nat.lt_of_lt_of_le hlt (Nat.not_lt.mp hm)
        | succ k =>
          have hk2 : diffAt (m :: r) twoDaysAgo (k + 1) = diffAt r twoDaysAgo k := by
            simp [diffAt, List.getD_cons_succ]
          rw [hk2]
          exact hstrict k (Nat.lt_of_succ_lt_succ hk)

/-- The scan result is the first index minimizing the timestamp distance to
the horizon. -/
lemma defaultIndexScan_spec (data : List SnapshotMetadata) (twoDaysAgo : Int)
    (hne : data ≠ []) :
    defaultIndexScan data twoDaysAgo < data.length ∧
    (∀ j, j < data.length →
      diffAt data twoDaysAgo (defaultIndexScan data twoDaysAgo)
        ≤ diffAt data twoDaysAgo j) ∧
    (∀ j, j < defaultIndexScan data twoDaysAgo →
      diffAt data twoDaysAgo (defaultIndexScan data twoDaysAgo)
        < diffAt data twoDaysAgo j) := by
  match data with
  | [] => exact absurd rfl hne
  | m :: rest =>
    have hstep : defaultIndexScan (m :: rest) twoDaysAgo
        = (scanLoop twoDaysAgo rest 1 (0, some (tsDiff twoDaysAgo m))).1 := rfl
    by_cases hr : ∃ m2 ∈ rest, tsDiff twoDaysAgo m2 < tsDiff twoDaysAgo m
    · obtain ⟨j, hjlen, heq, hlt, hmin, hstrict⟩ :=
        scanLoop_improve twoDaysAgo rest 1 0 (tsDiff twoDaysAgo m) hr
      have hval : defaultIndexScan (m :: rest) twoDaysAgo = j + 1 := by
        rw [hstep, heq]; omega
      rw [hval]
      have hd : diffAt (m :: rest) twoDaysAgo (j + 1) = diffAt rest twoDaysAgo j := by
        simp [diffAt, List.getD_cons_succ]
      refine ⟨by simpa using Nat.succ_lt_succ hjlen, ?_, ?_⟩
      · intro k hk
        rw [hd]
        cases k with
        | zero =>
          have h0 : diffAt (m :: rest) twoDaysAgo 0 = tsDiff twoDaysAgo m := by
            simp [diffAt, List.getD_cons_zero]
          rw [h0]; exact Nat.le_of_lt hlt
        | succ k =>
          have hk2 : diffAt (m :: rest) twoDaysAgo (k + 1) = diffAt rest twoDaysAgo k := by
            simp [diffAt, List.getD_cons_succ]
          rw [hk2]
          exact hmin k (by simpa using Nat.lt_of_succ_lt_succ hk)
      · intro k hk
        rw [hd]
        cases k with
        | zero =>
          have h0 : diffAt (m :: rest) twoDaysAgo 0 = tsDiff twoDaysAgo m := by
            simp [diffAt, List.getD_cons_zero]
          rw [h0]; exact hlt
        | succ k =>
          have hk2 : diffAt (m :: rest) twoDaysAgo (k + 1) = diffAt rest twoDaysAgo k := by
            simp [diffAt, List.getD_cons_succ]
          rw [hk2]
          exact hstrict k (Nat.lt_of_succ_lt_succ hk)
    · push_neg at hr
      have hval : defaultIndexScan (m :: rest) twoDaysAgo = 0 := by
        rw [hstep, scanLoop_no_improve twoDaysAgo rest 1 0 (tsDiff twoDaysAgo m) hr]
      rw [hval]
      have h0 : diffAt (m :: rest) twoDaysAgo 0 = tsDiff twoDaysAgo m := by
        simp [diffAt, List.getD_cons_zero]
      refine ⟨by simp, ?_, ?_⟩
      · intro k hk
        rw [h0]
        cases k with
        | zero => rw [h0]
        | succ k =>
          have hk2 : diffAt (m :: rest) twoDaysAgo (k + 1) = diffAt rest twoDaysAgo k := by
            simp [diffAt, List.getD_cons_succ]
          rw [hk2]
          have hklen : k < rest.length := by simpa using Nat.lt_of_succ_lt_succ hk
          exact hr _ (getD_mem_of_lt hklen)
      · intro k hk; exact absurd hk (Nat.not_lt_zero k)

/-- The state held by `useCycloneData` (src/unnamed/part_001 lines 260-267).
Initial values are the `useState` arguments. -/
structure HookState where
  metadata : List SnapshotMetadata
  currentSnapshot : Option LoadedSnapshot
  currentMetadata : Option SnapshotMetadata
  isLoading : Bool
  loadingMessage : String
  loadingProgress : Nat
  error : Option String
  defaultIndex : Nat
deriving DecidableEq

/-- The initial hook state (the `useState` initial values,
src/unnamed/part_001 lines 260-267). -/
def initialHookState : HookState :=
  { metadata := []
    currentSnapshot := none
    currentMetadata := none
    isLoading := true
    loadingMessage := "Chargement des metadonnees..."
    loadingProgress := 0
    error := none
    defaultIndex := 0 }

/-- Modelled from the spec: `getSatelliteImageUrl` lives in the web app's
`utils/api.ts`, which is not among the provided sources. Per the spec
("`urlFor(fileRef) -> URL`: deterministic string transform appending the
resource root to a relative file path") it prefixes the data root. -/
def getSatelliteImageUrl (filePath : String) : String :=
  String.append "/data/" filePath

/-- One entry of the prefetch batch (the async closure passed to
`snapshotsToPrefetch.map`, src/unnamed/part_001 lines 315-331): fetch the
snapshot JSON, then preload the IR108 and RGB satellite images when
present. A rejection of any sub-step rejects the entry. (The two image
preloads run under their own `Promise.all`; sequencing them here fixes
which rejection reason is reported, which no claim depends on.) -/
def prefetchEntry (fetchSnap : SnapshotMetadata → Except String LoadedSnapshot)
    (preload : String → Except String Unit) (meta : SnapshotMetadata) :
    Except String Unit :=
  match fetchSnap meta with
  | Except.error e => Except.error e
  | Except.ok _ =>
    match (match meta.satellite_ir108 with
           | some sat => preload (getSatelliteImageUrl sat.file)
           | none => Except.ok ()) with
    | Except.error e => Except.error e
    | Except.ok _ =>
      match meta.satellite_rgb_naturalenhncd with
      | some sat => preload (getSatelliteImageUrl sat.file)
      | none => Except.ok ()

/-- The `Promise.all` join over the prefetch entries (src/unnamed/part_001
lines 314-341): resolves only when every entry resolves, rejects as soon as
any entry rejects (the model reports the first rejecting entry in store
order; `Promise.all` reports the first in time, which no claim depends
on). -/
def prefetchBatch (fetchSnap : SnapshotMetadata → Except String LoadedSnapshot)
    (preload : String → Except String Unit) :
    List SnapshotMetadata → Except String Unit
  | [] => Except.ok ()
  | meta :: rest =>
    match prefetchEntry fetchSnap preload meta with
    | Except.error e => Except.error e
    | Except.ok _ => prefetchBatch fetchSnap preload rest

/-- The prefetch filter of src/unnamed/part_001 lines 289-292:
`twoDaysAgo = Date.now() - 2*24*60*60*1000` (milliseconds) and
`data.filter((meta) => meta.timestamp >= twoDaysAgo)`. -/
def snapshotsToPrefetch (data : List SnapshotMetadata) (nowMs : Int) :
    List SnapshotMetadata :=
  data.filter (fun meta => decide (nowMs - 2 * 24 * 60 * 60 * 1000 ≤ meta.timestamp))

/-- The `init` function of the `useEffect` in `useCycloneData`
(src/unnamed/part_001 lines 273-361), as explicit state passing.

* `metaResult` is the outcome of `await loadMetadata()`;
* `fetchSnap` the outcome of `await fetchSnapshotData(meta)` for each
  metadata entry (deterministic per entry, which suffices for the claims);
* `preload` the outcome of `await preloadImage(url)`;
* `nowMs` is `Date.now()` in milliseconds;
* `mounted` is the liveness flag read at each `mounted` check in the
  source (modelled as constant over the run: `false` describes a consumer
  that is gone by the first continuation).

Thrown errors carry the human-readable message the catch handler would
store (`err.message`). On the failure path of the batch, the per-entry
progress updates that completed before the rejection are not modelled
(their net effect is timing-dependent; no claim depends on them); on the
success path the last progress update deterministically wrote
`total/total`, i.e. 100. -/
def cycloneInit (metaResult : Except String (List SnapshotMetadata))
    (fetchSnap : SnapshotMetadata → Except String LoadedSnapshot)
    (preload : String → Except String Unit)
    (nowMs : Int) (mounted : Bool) (s : HookState) : HookState :=
  -- lines 276-277: synchronous message/progress reset before the first await
  let s0 : HookState :=
    { s with loadingMessage := "Chargement des metadonnees...", loadingProgress := 0 }
  match metaResult with
  | Except.error msg =>
    -- lines 356-360: catch handler, guarded by the mounted check
    if mounted then { s0 with error := some msg, isLoading := false } else s0
  | Except.ok data =>
    -- line 280: if (!mounted) return
    if !mounted then s0 else
    -- line 281: setMetadata(data)
    let s1 : HookState := { s0 with metadata := data }
    -- lines 283-286: empty-store early return
    if data.length = 0 then { s1 with isLoading := false } else
    let twoDaysAgo : Int := nowMs - 2 * 24 * 60 * 60 * 1000
    let toPrefetch : List SnapshotMetadata := snapshotsToPrefetch data nowMs
    -- lines 295-304: default-index scan and setDefaultIndex
    let initialIndex : Nat := defaultIndexScan data twoDaysAgo
    let s2 : HookState :=
      { s1 with defaultIndex := initialIndex,
                loadingMessage := "Prechargement des donnees..." }
    let total : Nat := toPrefetch.length
    -- lines 312-342: if (total > 0) await Promise.all(...)
    match prefetchBatch fetchSnap preload toPrefetch with
    | Except.error msg =>
      -- lines 356-360: catch handler
      if mounted then { s2 with error := some msg, isLoading := false } else s2
    | Except.ok _ =>
      -- lines 333-339: net effect of the per-entry progress updates
      let s3 : HookState :=
        if 0 < total ∧ mounted = true then
          { s2 with loadingProgress := 100,
                    loadingMessage := "Prechargement des donnees... "
                      ++ toString total ++ "/" ++ toString total }
        else s2
      -- line 344: if (!mounted) return
      if !mounted then s3 else
      -- lines 347-348
      let s4 : HookState := { s3 with loadingMessage := "Pret !", loadingProgress := 100 }
      -- line 350: await fetchSnapshotData(data[initialIndex])
      match fetchSnap (data.getD initialIndex mdefault) with
      | Except.error msg =>
        if mounted then { s4 with error := some msg, isLoading := false } else s4
      | Except.ok snap =>
        -- line 351: if (!mounted) return; lines 353-355
        if !mounted then s4 else
        { s4 with currentSnapshot := some snap,
                  currentMetadata := some (data.getD initialIndex mdefault),
                  isLoading := false }

/-- `loadSnapshot` (src/unnamed/part_001 lines 370-383): bounds check, then
a synchronous `setCurrentMetadata`, then the awaited snapshot fetch whose
success updates `currentSnapshot` and whose failure is logged and
swallowed. The source reads no liveness flag here (the `mounted` variable
is local to the `useEffect` closure and not in scope), so this function
has no liveness input: its updates apply unconditionally. -/
def loadSnapshot (fetchSnap : SnapshotMetadata → Except String LoadedSnapshot)
    (index : Int) (s : HookState) : HookState :=
  if index < 0 ∨ (s.metadata.length : Int) ≤ index then s
  else
    let meta := s.metadata.getD index.toNat mdefault
    let s1 : HookState := { s with currentMetadata := some meta }
    match fetchSnap meta with
    | Except.ok snap => { s1 with currentSnapshot := some snap }
    | Except.error _ => s1

/-! ## Shared concrete values used by witnesses and counterexamples -/

/-- A sample loaded snapshot. -/
def exSnap : LoadedSnapshot := { payload := "trajectoire" }

/-- A snapshot fetch that always resolves. -/
def exFsOk : SnapshotMetadata → Except String LoadedSnapshot :=
  fun _ => Except.ok exSnap

/-- A snapshot fetch that always rejects. -/
def exFsErr : SnapshotMetadata → Except String LoadedSnapshot :=
  fun _ => Except.error "reseau indisponible"

/-- An image preload that always resolves. -/
def exPl : String → Except String Unit := fun _ => Except.ok ()

/-- A metadata entry with no satellite imagery. -/
def exMeta (t : Int) (p : String) : SnapshotMetadata :=
  { timestamp := t, path := p, satellite_ir108 := none,
    satellite_rgb_naturalenhncd := none }

/-- The three-entry store of the spec's worked example (timestamps
100, 200, 300). -/
def exData3 : List SnapshotMetadata :=
  [exMeta 100 "a.json", exMeta 200 "b.json", exMeta 300 "c.json"]

/-- A hook state holding `exData3`, as after a metadata load. -/
def exState : HookState := { initialHookState with metadata := exData3 }

/-- `exState` with a previously published snapshot. -/
def exStateOld : HookState :=
  { exState with currentSnapshot := some { payload := "ancienne" },
                 currentMetadata := some (exMeta 100 "a.json") }

/-! ## Helper lemmas about the init protocol -/

/-- If some entry of the batch rejects, the `Promise.all` join rejects. -/
lemma prefetchBatch_error_of_entry
    (fetchSnap : SnapshotMetadata → Except String LoadedSnapshot)
    (preload : String → Except String Unit) :
    ∀ l : List SnapshotMetadata,
      (∃ m ∈ l, ∃ e, prefetchEntry fetchSnap preload m = Except.error e) →
      ∃ e2, prefetchBatch fetchSnap preload l = Except.error e2 := by
  intro l
  induction l with
  | nil => rintro ⟨m, hm, _⟩; simp at hm
  | cons m r ih =>
    rintro ⟨m2, hmem, e, he⟩
    cases hpe : prefetchEntry fetchSnap preload m with
    | error e3 => exact ⟨e3, by simp [prefetchBatch, hpe]⟩
    | ok u =>
      rcases List.mem_cons.mp hmem with h | h
      · rw [h] at he; rw [hpe] at he; exact Except.noConfusion he
      · obtain ⟨e2, hb⟩ := ih ⟨m2, h, e, he⟩
        exact ⟨e2, by simp [prefetchBatch, hpe, hb]⟩

/-- The catch handler on a metadata-load failure (mounted). -/
lemma cycloneInit_meta_error (msg : String)
    (fetchSnap : SnapshotMetadata → Except String LoadedSnapshot)
    (preload : String → Except String Unit) (nowMs : Int) (s : HookState) :
    cycloneInit (Except.error msg) fetchSnap preload nowMs true s
      = { s with loadingMessage := "Chargement des metadonnees...",
                 loadingProgress := 0, error := some msg, isLoading := false } := rfl

/-- The catch handler on a prefetch-batch failure (mounted, non-empty
store). -/
lemma cycloneInit_batch_error (data : List SnapshotMetadata)
    (fetchSnap : SnapshotMetadata → Except String LoadedSnapshot)
    (preload : String → Except String Unit) (nowMs : Int) (e2 : String)
    (s : HookState) (hne : data ≠ [])
    (hb : prefetchBatch fetchSnap preload (snapshotsToPrefetch data nowMs)
            = Except.error e2) :
    cycloneInit (Except.ok data) fetchSnap preload nowMs true s
      = { s with metadata := data,
                 loadingMessage := "Prechargement des donnees...",
                 loadingProgress := 0,
                 defaultIndex := defaultIndexScan data (nowMs - 2 * 24 * 60 * 60 * 1000),
                 error := some e2, isLoading := false } := by
  have hlen : ¬ data.length = 0 := by
    simpa using fun hc => hne (List.length_eq_zero.mp hc)
  simp only [cycloneInit, Bool.not_true, Bool.false_eq_true, if_false, if_neg hlen, hb]
  simp

/-- The `defaultIndex` published by init equals the scan result, whatever
the later prefetch/fetch outcomes are. -/
lemma cycloneInit_defaultIndex (data : List SnapshotMetadata)
    (fetchSnap : SnapshotMetadata → Except String LoadedSnapshot)
    (preload : String → Except String Unit) (nowMs : Int) (s : HookState)
    (hne : data ≠ []) :
    (cycloneInit (Except.ok data) fetchSnap preload nowMs true s).defaultIndex
      = defaultIndexScan data (nowMs - 2 * 24 * 60 * 60 * 1000) := by
  have hlen : ¬ data.length = 0 := by
    simpa using fun hc => hne (List.length_eq_zero.mp hc)
  simp only [cycloneInit, Bool.not_true, Bool.false_eq_true, if_false, if_neg hlen]
  split
  · simp
  · split <;> split <;> (try split) <;> simp

/-! ## Claim theorems -/

/-- C1: for every non-empty metadata array, the `defaultIndex` computed
during initialization equals the index minimizing
`|metadata[i].timestamp - horizon|` with `horizon = now - 2 days`
(as the code computes it, in milliseconds of `Date.now()`), the first
minimal index winning ties — i.e. every other index has a distance at
least as large, and every strictly earlier index a strictly larger one. -/
theorem defaultIndex_nearest_horizon (data : List SnapshotMetadata)
    (fetchSnap : SnapshotMetadata → Except String LoadedSnapshot)
    (preload : String → Except String Unit) (nowMs : Int)
    (hne : data ≠ []) :
    (cycloneInit (Except.ok data) fetchSnap preload nowMs true initialHookState).defaultIndex
      = defaultIndexScan data (nowMs - 2 * 24 * 60 * 60 * 1000) ∧
    defaultIndexScan data (nowMs - 2 * 24 * 60 * 60 * 1000) < data.length ∧
    (∀ j, j < data.length →
      diffAt data (nowMs - 2 * 24 * 60 * 60 * 1000)
          (defaultIndexScan data (nowMs - 2 * 24 * 60 * 60 * 1000))
        ≤ diffAt data (nowMs - 2 * 24 * 60 * 60 * 1000) j) ∧
    (∀ j, j < defaultIndexScan data (nowMs - 2 * 24 * 60 * 60 * 1000) →
      diffAt data (nowMs - 2 * 24 * 60 * 60 * 1000)
          (defaultIndexScan data (nowMs - 2 * 24 * 60 * 60 * 1000))
        < diffAt data (nowMs - 2 * 24 * 60 * 60 * 1000) j) := by
  obtain ⟨hlt, hmin, hstrict⟩ :=
    defaultIndexScan_spec data (nowMs - 2 * 24 * 60 * 60 * 1000) hne
  exact ⟨cycloneInit_defaultIndex data fetchSnap preload nowMs initialHookState hne,
         hlt, hmin, hstrict⟩

/-- C1 witness: the spec's worked example. With timestamps 100, 200, 300
and `nowMs = 172800250` (horizon 250), distances are 150, 50, 50; the tie
between indices 1 and 2 is broken toward index 1. -/
theorem defaultIndex_nearest_horizon_witness :
    (cycloneInit (Except.ok exData3) exFsOk exPl 172800250 true initialHookState).defaultIndex
      = 1 := by
  have h := defaultIndex_nearest_horizon exData3 exFsOk exPl 172800250 (by decide)
  rw [h.1]
  decide

/-- C6: for an empty metadata array, initialization completes
successfully: `isLoading` becomes false, `currentSnapshot` stays `none`
and `error` stays `none` (src/unnamed/part_001 lines 283-286). -/
theorem init_empty_store
    (fetchSnap : SnapshotMetadata → Except String LoadedSnapshot)
    (preload : String → Except String Unit) (nowMs : Int) :
    (cycloneInit (Except.ok []) fetchSnap preload nowMs true initialHookState).isLoading
        = false ∧
    (cycloneInit (Except.ok []) fetchSnap preload nowMs true initialHookState).currentSnapshot
        = none ∧
    (cycloneInit (Except.ok []) fetchSnap preload nowMs true initialHookState).error
        = none :=
  ⟨rfl, rfl, rfl⟩

/-- C10: on an empty store, init leaves the published `defaultIndex` at
its `useState(0)` initial value — an out-of-range index for the empty
store (length 0 ≤ 0) — and a subsequent `loadSnapshot` at that index is
silently ignored. -/
theorem init_empty_defaultIndex_zero
    (fetchSnap : SnapshotMetadata → Except String LoadedSnapshot)
    (preload : String → Except String Unit) (nowMs : Int)
    (fetchSnap2 : SnapshotMetadata → Except String LoadedSnapshot) :
    (cycloneInit (Except.ok []) fetchSnap preload nowMs true initialHookState).defaultIndex
        = 0 ∧
    (cycloneInit (Except.ok []) fetchSnap preload nowMs true initialHookState).metadata
        = [] ∧
    (cycloneInit (Except.ok []) fetchSnap preload nowMs true initialHookState).metadata.length
        ≤ (cycloneInit (Except.ok []) fetchSnap preload nowMs true initialHookState).defaultIndex ∧
    loadSnapshot fetchSnap2
        ((cycloneInit (Except.ok []) fetchSnap preload nowMs true initialHookState).defaultIndex : Int)
        (cycloneInit (Except.ok []) fetchSnap preload nowMs true initialHookState)
      = cycloneInit (Except.ok []) fetchSnap preload nowMs true initialHookState :=
  ⟨rfl, rfl, Nat.le_refl 0, rfl⟩

/-- C7: `loadSnapshot` with an out-of-range index (negative, or at least
the store length) is a no-op: the state is returned unchanged and no
access outside the array happens (the bounds check of
src/unnamed/part_001 line 371 returns before anything else). -/
theorem loadSnapshot_out_of_range
    (fetchSnap : SnapshotMetadata → Except String LoadedSnapshot)
    (s : HookState) (index : Int)
    (h : index < 0 ∨ (s.metadata.length : Int) ≤ index) :
    loadSnapshot fetchSnap index s = s := by
  unfold loadSnapshot
  rw [if_pos h]

/-- C7 witness: `loadSnapshot(-1)` and `loadSnapshot(N)` on the
three-entry example store. -/
theorem loadSnapshot_out_of_range_witness :
    loadSnapshot exFsOk (-1) exState = exState ∧
    loadSnapshot exFsOk 3 exState = exState :=
  ⟨loadSnapshot_out_of_range exFsOk exState (-1) (by decide),
   loadSnapshot_out_of_range exFsOk exState 3 (by decide)⟩

/-- C8: for an in-range index whose snapshot fetch rejects, the error is
swallowed (the function still returns a state, never a thrown error),
`currentMetadata` was already set synchronously to `metadata[index]`, and
`currentSnapshot` keeps its previous value
(src/unnamed/part_001 lines 373-382). -/
theorem loadSnapshot_failure_keeps_current
    (fetchSnap : SnapshotMetadata → Except String LoadedSnapshot)
    (s : HookState) (index : Int) (e : String)
    (h0 : 0 ≤ index) (h1 : index < (s.metadata.length : Int))
    (hf : fetchSnap (s.metadata.getD index.toNat mdefault) = Except.error e) :
    (loadSnapshot fetchSnap index s).currentSnapshot = s.currentSnapshot ∧
    (loadSnapshot fetchSnap index s).currentMetadata
      = some (s.metadata.getD index.toNat mdefault) := by
  have hcond : ¬ (index < 0 ∨ (s.metadata.length : Int) ≤ index) := by omega
  constructor <;> simp only [loadSnapshot, if_neg hcond, hf]

/-- C8 witness: index 1 of the example store with a previously published
snapshot and a rejecting fetch. -/
theorem loadSnapshot_failure_keeps_current_witness :
    (loadSnapshot exFsErr 1 exStateOld).currentSnapshot
        = some { payload := "ancienne" } ∧
    (loadSnapshot exFsErr 1 exStateOld).currentMetadata
        = some (exMeta 200 "b.json") := by
  have h := loadSnapshot_failure_keeps_current exFsErr exStateOld 1
    "reseau indisponible" (by decide) (by decide) rfl
  exact ⟨by rw [h.1]; rfl, by rw [h.2]; rfl⟩

/-- C3: if the metadata fetch rejects, or any single entry of the prefetch
set rejects (one failing entry fails the whole `Promise.all` batch),
initialization ends in the error state: `error` holds the thrown message,
`isLoading` is false, and no current snapshot is published. -/
theorem init_failure_error_state
    (metaResult : Except String (List SnapshotMetadata))
    (fetchSnap : SnapshotMetadata → Except String LoadedSnapshot)
    (preload : String → Except String Unit) (nowMs : Int)
    (hfail : (∃ msg, metaResult = Except.error msg) ∨
      (∃ data, metaResult = Except.ok data ∧ data ≠ [] ∧
        ∃ m ∈ snapshotsToPrefetch data nowMs,
          ∃ e, prefetchEntry fetchSnap preload m = Except.error e)) :
    ∃ msg,
      (cycloneInit metaResult fetchSnap preload nowMs true initialHookState).error
          = some msg ∧
      (cycloneInit metaResult fetchSnap preload nowMs true initialHookState).isLoading
          = false ∧
      (cycloneInit metaResult fetchSnap preload nowMs true initialHookState).currentSnapshot
          = none := by
  rcases hfail with ⟨msg, rfl⟩ | ⟨data, rfl, hne, hentry⟩
  · refine ⟨msg, ?_, ?_, ?_⟩ <;>
      (rw [cycloneInit_meta_error msg fetchSnap preload nowMs initialHookState]; try rfl)
  · obtain ⟨e2, hb⟩ := prefetchBatch_error_of_entry fetchSnap preload _ hentry
    refine ⟨e2, ?_, ?_, ?_⟩ <;>
      (rw [cycloneInit_batch_error data fetchSnap preload nowMs e2 initialHookState hne hb]; try rfl)

/-- C3 witness: a rejecting snapshot fetch inside the prefetch set (store
`exData3`, `now = 0` so every entry is in the prefetch window) drives init
into the error state. -/
theorem init_failure_error_state_witness :
    ∃ msg,
      (cycloneInit (Except.ok exData3) exFsErr exPl 0 true initialHookState).error
          = some msg ∧
      (cycloneInit (Except.ok exData3) exFsErr exPl 0 true initialHookState).isLoading
          = false ∧
      (cycloneInit (Except.ok exData3) exFsErr exPl 0 true initialHookState).currentSnapshot
          = none :=
  init_failure_error_state (Except.ok exData3) exFsErr exPl 0
    (Or.inr ⟨exData3, rfl, by decide,
      ⟨exMeta 100 "a.json", by decide, "reseau indisponible", rfl⟩⟩)

/-- `timestamp` as the repository's own index generator writes it
(src/meteo-france-api/fetch_api.ts line 103:
`timestamp: Math.floor(stats.mtimeMs / 1000)`), i.e. seconds since
epoch. -/
def fetchApiTimestamp (mtimeMs : Int) : Int := Int.fdiv mtimeMs 1000

/-- The prefetch set claim C2 describes: all entries with `timestamp >=
horizon`, the horizon being two days before now expressed in the store's
timestamp unit — seconds, for stores written by fetch_api.ts. Stated from
the claim's words, to be compared with `snapshotsToPrefetch` (the code). -/
def claimedPrefetchSet (data : List SnapshotMetadata) (nowMs : Int) :
    List SnapshotMetadata :=
  data.filter (fun meta =>
    decide (Int.fdiv nowMs 1000 - 2 * 24 * 60 * 60 ≤ meta.timestamp))

/-- An index entry as fetch_api.ts writes it for a file last modified
1000000 ms (about 17 minutes) before `now = 1000000000000 ms`: its
`timestamp` is in seconds. -/
def c2entry : SnapshotMetadata :=
  { timestamp := fetchApiTimestamp 999999000000,
    path := "data/2001-09-08/16-46-39/cyclone_list.json",
    satellite_ir108 := none, satellite_rgb_naturalenhncd := none }

/-- C2 is violated by the code: the hook filters second-valued store
timestamps against a millisecond horizon (`Date.now() - 2*24*60*60*1000`,
src/unnamed/part_001 lines 289-292), so an entry from 17 minutes ago is
excluded and the code's prefetch set is empty, while the prefetch set the
claim describes (horizon in the store's unit) contains the entry. -/
theorem prefetch_unit_mismatch :
    snapshotsToPrefetch [c2entry] 1000000000000 = [] ∧
    claimedPrefetchSet [c2entry] 1000000000000 = [c2entry] ∧
    c2entry.timestamp = 999999000 := by decide

/-- Modelled from the spec: `bboxToLeafletBounds` lives in the web app's
`utils/api.ts`, which is not among the provided sources. Per the spec and
the README (src/unnamed/part_002, Rendering Pipeline step 2) it converts
the bbox quadruple `(minLon, minLat, maxLon, maxLat)` into Leaflet bounds
`((minLat, minLon), (maxLat, maxLon))` — axis swap and SW/NE regrouping,
nothing else. -/
def bboxToLeafletBounds (bbox : Rat × Rat × Rat × Rat) :
    (Rat × Rat) × (Rat × Rat) :=
  ((bbox.2.1, bbox.1), (bbox.2.2.2, bbox.2.2.1))

/-- C4: `boundsFor` is the pure axis-swap/regrouping with no clamping or
range validation (any quadruple, valid or not, maps through unchanged),
and on the repository's WMS bbox `[21.1, -41, 103, 21.1]` it returns
`[[-41, 21.1], [21.1, 103]]` exactly. -/
theorem bboxToLeafletBounds_swap :
    (∀ minLon minLat maxLon maxLat : Rat,
      bboxToLeafletBounds (minLon, minLat, maxLon, maxLat)
        = ((minLat, minLon), (maxLat, maxLon))) ∧
    bboxToLeafletBounds (211/10, -41, 103, 211/10)
        = ((-41, 211/10), (211/10, 103)) :=
  ⟨fun _ _ _ _ => rfl, by norm_num [bboxToLeafletBounds]⟩

/-- Modelled from the spec: the Snapshot Loader (`fetchSnapshotData` in
the web app's `utils/api.ts`, not among the provided sources) memoizes by
the metadata's trajectory reference: the cache maps each key to its
(possibly still in-flight) promise, a hit returns that promise without
touching the network, and a miss issues exactly one request and stores the
promise before returning it. `requests` counts network requests issued. -/
structure LoaderState where
  cache : List (String × LoadedSnapshot)
  requests : Nat
deriving DecidableEq

/-- Modelled from the spec: one `fetch(metadata)` call of the Snapshot
Loader, keyed by the trajectory reference. -/
def loaderFetch (net : String → LoadedSnapshot) (key : String)
    (st : LoaderState) : LoadedSnapshot × LoaderState :=
  match st.cache.lookup key with
  | some p => (p, st)
  | none =>
    let p := net key
    (p, { cache := (key, p) :: st.cache, requests := st.requests + 1 })

/-- C5: two `fetch(metadata)` calls with the same trajectory reference,
the second issued before the first resolves (i.e. against the cache state
the first call left, whose entry stands for the in-flight promise), issue
exactly one network request between them, and both receive the result of
that single request. -/
theorem loader_single_flight (net : String → LoadedSnapshot) (key : String)
    (st : LoaderState) (h : st.cache.lookup key = none) :
    (loaderFetch net key ((loaderFetch net key st).2)).2.requests
        = st.requests + 1 ∧
    (loaderFetch net key ((loaderFetch net key st).2)).1
        = (loaderFetch net key st).1 := by
  simp [loaderFetch, h, List.lookup]

/-- C5 witness: two calls for the same key on the empty cache. -/
theorem loader_single_flight_witness :
    (loaderFetch (fun _ => exSnap) "a.json"
        ((loaderFetch (fun _ => exSnap) "a.json" ⟨[], 0⟩).2)).2.requests = 1 ∧
    (loaderFetch (fun _ => exSnap) "a.json"
        ((loaderFetch (fun _ => exSnap) "a.json" ⟨[], 0⟩).2)).1
      = (loaderFetch (fun _ => exSnap) "a.json" ⟨[], 0⟩).1 :=
  loader_single_flight (fun _ => exSnap) "a.json" ⟨[], 0⟩ rfl

/-- C9 counterexample: the claim says every state update in an
asynchronous continuation — including those reached from `loadSnapshot` —
is guarded by the liveness flag, so a late resolution never mutates the
hook state. But the source's `loadSnapshot` (src/unnamed/part_001
lines 370-383) contains no liveness check at all — the `mounted` variable
is local to the `useEffect` closure and not in scope there — so its
post-await update runs identically when the consumer is gone: at this
concrete input the resolution mutates `currentSnapshot`. -/
theorem loadSnapshot_unguarded_counterexample :
    loadSnapshot exFsOk 0 exState ≠ exState ∧
    (loadSnapshot exFsOk 0 exState).currentSnapshot = some exSnap := by decide

/-- C9 amended: every state update in the `init` effect's asynchronous
continuations is guarded by the `mounted` flag — with the flag down, init
returns the state unchanged for every outcome of every awaited operation —
but `loadSnapshot`'s post-await update is not guarded: whenever its fetch
resolves, it writes `currentSnapshot` unconditionally (the function has no
liveness input to consult). -/
theorem init_guarded_loadSnapshot_not
    (metaResult : Except String (List SnapshotMetadata))
    (fetchSnap : SnapshotMetadata → Except String LoadedSnapshot)
    (preload : String → Except String Unit) (nowMs : Int) :
    cycloneInit metaResult fetchSnap preload nowMs false initialHookState
        = initialHookState ∧
    (∀ (fetchSnap2 : SnapshotMetadata → Except String LoadedSnapshot)
       (s : HookState) (i : Int) (snap : LoadedSnapshot),
      0 ≤ i → i < (s.metadata.length : Int) →
      fetchSnap2 (s.metadata.getD i.toNat mdefault) = Except.ok snap →
      (loadSnapshot fetchSnap2 i s).currentSnapshot = some snap) := by
  constructor
  · cases metaResult <;> rfl
  · intro fetchSnap2 s i snap h0 h1 hf
    have hcond : ¬ (i < 0 ∨ (s.metadata.length : Int) ≤ i) := by omega
    simp only [loadSnapshot, if_neg hcond, hf]

/-- C9 amended witness: a late init resolution leaves the initial state
untouched, while a resolving `loadSnapshot` updates `currentSnapshot`
regardless of liveness. -/
theorem init_guarded_loadSnapshot_not_witness :
    cycloneInit (Except.ok exData3) exFsOk exPl 0 false initialHookState
        = initialHookState ∧
    (loadSnapshot exFsOk 1 exState).currentSnapshot = some exSnap :=
  ⟨(init_guarded_loadSnapshot_not (Except.ok exData3) exFsOk exPl 0).1,
   (init_guarded_loadSnapshot_not (Except.ok exData3) exFsOk exPl 0).2
     exFsOk exState 1 exSnap (by decide) (by decide) rfl⟩
